import Mathlib

/-!
Verification development for the plot-tropomi rendering pipeline.

The definitions below are a shallow embedding of `plot_tropomi.py` (the
richer of the two script variants; `plot-tropomi.py` differs only where
noted).  Python floats are modelled as exact rationals (`ℚ`), numpy arrays
of observation values as lists, `np.nan` sentinels as `Option` with `none`
for a missing value, and Python dictionaries as association lists.
-/

namespace PlotTropomi

/-! ## Time codec: `dayssince_to_timestamp`

The Python source parses the epoch with
`datetime.datetime.strptime(epochdate, "%Y%m%d")`, adds
`datetime.timedelta(days=dayssince)` and formats the result with
`strftime('%Y-%m-%d %H:%M')`.  We model a calendar date by its
year/month/day fields, the timedelta addition by exact rational
arithmetic floored to whole minutes (strftime truncates the seconds and
sub-second part), and the `datetime` range limits (`MINYEAR = 1`,
`MAXYEAR = 9999`, exceeding them raises `OverflowError`/`ValueError`) by
an `Option` result. -/

/-- A proleptic Gregorian calendar date, as held by `datetime.datetime`
(year, month, day). -/
structure Date where
  y : Nat
  m : Nat
  d : Nat
deriving DecidableEq

/-- Gregorian leap-year rule used by `datetime`. -/
def isLeap (y : Nat) : Bool :=
  y % 4 == 0 && (y % 100 != 0 || y % 400 == 0)

/-- Number of days in a month of a given year (Gregorian calendar). -/
def daysInMonth (y m : Nat) : Nat :=
  if m = 2 then (if isLeap y then 29 else 28)
  else if m = 4 ∨ m = 6 ∨ m = 9 ∨ m = 11 then 30
  else 31

/-- The calendar day after `dt`. -/
def nextDay (dt : Date) : Date :=
  if dt.d < daysInMonth dt.y dt.m then ⟨dt.y, dt.m, dt.d + 1⟩
  else if dt.m < 12 then ⟨dt.y, dt.m + 1, 1⟩
  else ⟨dt.y + 1, 1, 1⟩

/-- The calendar day before `dt`. -/
def prevDay (dt : Date) : Date :=
  if 1 < dt.d then ⟨dt.y, dt.m, dt.d - 1⟩
  else if 1 < dt.m then ⟨dt.y, dt.m - 1, daysInMonth dt.y (dt.m - 1)⟩
  else ⟨dt.y - 1, 12, 31⟩

/-- Advance a date by `n` calendar days.  (The first argument is matched
against the constructor so that evaluation stays in constructor form.) -/
def addDays : Date → Nat → Date
  | dt, 0 => dt
  | ⟨y, m, d⟩, Nat.succ n => addDays (nextDay ⟨y, m, d⟩) n

/-- Move a date back by `n` calendar days. -/
def subDays : Date → Nat → Date
  | dt, 0 => dt
  | ⟨y, m, d⟩, Nat.succ n => subDays (prevDay ⟨y, m, d⟩) n

/-- Value of a list of decimal digit characters. -/
def digitsToNat (cs : List Char) : Nat :=
  cs.foldl (fun a c => a * 10 + (c.toNat - 48)) 0

/-- Model of `datetime.datetime.strptime(epochdate, "%Y%m%d")`: eight
decimal digits, validated as a calendar date within `datetime`'s
representable year range `1..9999` (an invalid string raises
`ValueError`, modelled as `none`). -/
def strptimeYmd (s : String) : Option Date :=
  let cs := s.data
  if cs.length = 8 ∧ cs.all Char.isDigit = true then
    let y := digitsToNat (cs.take 4)
    let mo := digitsToNat ((cs.drop 4).take 2)
    let dy := digitsToNat (cs.drop 6)
    if 1 ≤ y ∧ y ≤ 9999 ∧ 1 ≤ mo ∧ mo ≤ 12 ∧ 1 ≤ dy ∧ dy ≤ daysInMonth y mo then
      some ⟨y, mo, dy⟩
    else none
  else none

/-- A `datetime` value truncated to minute precision, as produced by
formatting with `'%Y-%m-%d %H:%M'`. -/
structure DateTime where
  date : Date
  hour : Nat
  minute : Nat
deriving DecidableEq

/-- Whole minutes (floored) represented by a fractional day count, the
resolution kept by the `'%Y-%m-%d %H:%M'` format. -/
def minutesFloor (dayssince : ℚ) : Int :=
  Rat.floor (dayssince * 1440)

/-- Shift a date by a signed number of whole days, as
`datetime.timedelta` normalisation does (floor convention). -/
def shiftDate (d0 : Date) (dd : Int) : Date :=
  if 0 ≤ dd then addDays d0 dd.toNat else subDays d0 (-dd).toNat

/-- The `datetime` reached from midnight of `d0` after `tm` whole
minutes (`tm` may be negative). -/
def mkDateTime (d0 : Date) (tm : Int) : DateTime :=
  ⟨shiftDate d0 (Int.fdiv tm 1440), (Int.fmod tm 1440).toNat / 60, (Int.fmod tm 1440).toNat % 60⟩

/-- `datetime` only represents years `1..9999`; a sum outside this range
raises `OverflowError`. -/
def inRangeYear (dt : Date) : Bool :=
  1 ≤ dt.y && dt.y ≤ 9999

/-- Model of the arithmetic core of `dayssince_to_timestamp`
(`plot_tropomi.py` lines 76-91): parse the epoch, add the fractional day
offset, truncate to minute precision.  `none` models the `ValueError` /
`OverflowError` paths of `strptime` and the `datetime + timedelta`
addition. -/
def dayssince_to_datetime (epochdate : String) (dayssince : ℚ) : Option DateTime :=
  match strptimeYmd epochdate with
  | none => none
  | some d0 =>
    if inRangeYear (mkDateTime d0 (minutesFloor dayssince)).date then
      some (mkDateTime d0 (minutesFloor dayssince))
    else none

/-- Left-pad the decimal rendering of `n` to two digits, as the `%m`,
`%d`, `%H`, `%M` strftime directives do. -/
def pad2 (n : Nat) : String :=
  if n < 10 then "0" ++ toString n else toString n

/-- Left-pad the decimal rendering of `n` to four digits, as the `%Y`
strftime directive does for years up to 9999. -/
def pad4 (n : Nat) : String :=
  if n < 10 then "000" ++ toString n
  else if n < 100 then "00" ++ toString n
  else if n < 1000 then "0" ++ toString n
  else toString n

/-- Model of `strftime('%Y-%m-%d %H:%M')`. -/
def strftimeYmdHM (t : DateTime) : String :=
  pad4 t.date.y ++ "-" ++ pad2 t.date.m ++ "-" ++ pad2 t.date.d ++ " "
    ++ pad2 t.hour ++ ":" ++ pad2 t.minute

/-- `dayssince_to_timestamp` from `plot_tropomi.py` lines 76-91 (identical
in `plot-tropomi.py` lines 58-73): convert days since `epochdate` to a
formatted timestamp string. -/
def dayssince_to_timestamp (epochdate : String) (dayssince : ℚ) : Option String :=
  (dayssince_to_datetime epochdate dayssince).map strftimeYmdHM

/-- Chronological order key of a date: lexicographic on
(year, month, day). -/
def Date.toL (dt : Date) : ℕ ×ₗ ℕ ×ₗ ℕ :=
  toLex (dt.y, toLex (dt.m, dt.d))

/-- Chronological order key of a minute-precision datetime:
lexicographic on (date, hour, minute). -/
def DateTime.toL (t : DateTime) : (ℕ ×ₗ ℕ ×ₗ ℕ) ×ₗ ℕ ×ₗ ℕ :=
  toLex (t.date.toL, toLex (t.hour, t.minute))

/-! ## Grid loader: `read_file`

`read_file` (`plot_tropomi.py` lines 25-73) opens the file with
`harp.import_product` inside a `try/except` that only logs, squeezes the
observation array and masks values below the configured `min_value`. -/

/-- Shape effect of `numpy.ndarray.squeeze()` (`plot_tropomi.py` line 54):
every axis of extent 1 is removed from the shape. -/
def npSqueeze (shape : List Nat) : List Nat :=
  shape.filter (fun s => s != 1)

/-- The last two entries of a shape, `shape[-2:]` in numpy notation. -/
def lastTwo (shape : List Nat) : List Nat :=
  shape.drop (shape.length - 2)

/-- Python truthiness of `plot_conf.get("min_value")` as used in
`if min_value:` (`plot_tropomi.py` line 61): `None` and `0` are falsy. -/
def truthy : Option ℚ → Bool
  | none => false
  | some v => v != 0

/-- Threshold masking of `plot_tropomi.py` lines 58-62:
`obs_data[obs_data < min_value] = np.nan`, guarded by `if min_value:`.
Raw observation values are rationals; a masked cell becomes `none`
(the `np.nan` sentinel). -/
def applyMinValue (min_value : Option ℚ) (obs : List ℚ) : List (Option ℚ) :=
  if truthy min_value then
    obs.map (fun v => if v < min_value.getD 0 then none else some v)
  else
    obs.map some

/-- Errors a run can stop with.  `nameError` and `keyError` are ordinary
Python runtime errors; `dataUnavailableError` and `configurationError`
are modelled from the spec's error taxonomy (section 7) — the source
defines no such classes. -/
inductive PyErr where
  | nameError (name : String)
  | keyError (key : String)
  | dataUnavailableError (path : String)
  | configurationError (key : String)
deriving DecidableEq

/-- The `try/except` around `harp.import_product` in `read_file`
(`plot_tropomi.py` lines 45-53, `plot-tropomi.py` lines 34-44).  The
result of the import is `.ok product` or `.error message` (the provider raised).
On failure the handler only logs the two `logger.error` lines; execution
then falls through to `data[...]` on line 53, where the name `data` was
never bound, so Python raises `NameError: name 'data' is not defined`.
Returns the emitted log lines together with the outcome. -/
def read_file_open {α : Type} (infile : String) (importResult : Except String α) :
    List String × Except PyErr α :=
  match importResult with
  | Except.ok product =>
      (["Reading data file " ++ infile], Except.ok product)
  | Except.error msg =>
      (["Reading data file " ++ infile,
        "Error while reading the data file " ++ infile, msg],
       Except.error (PyErr.nameError "data"))

/-- The `try/except` around the config load in `main`
(`plot_tropomi.py` lines 290-298, `plot-tropomi.py` lines 128-135).  The
load result is `.ok conf` or `.error message` (`open`/`json.load`
raised).  On failure the handler only logs; execution falls through to
`conf["input"]` on line 302, where the name `conf` was never bound, so
Python raises `NameError: name 'conf' is not defined`. -/
def main_read_conf {α : Type} (var : String) (loadResult : Except String α) :
    List String × Except PyErr α :=
  match loadResult with
  | Except.ok conf =>
      (["Reading config file conf/" ++ var ++ ".json"], Except.ok conf)
  | Except.error msg =>
      (["Reading config file conf/" ++ var ++ ".json",
        "Error while reading the configuration file conf/" ++ var ++ ".json", msg],
       Except.error (PyErr.nameError "conf"))

/-! ## Regional renderer: `plot_data_ukraine`

Border styling (lines 184-208), road filtering (lines 210-218) and city
label offsets (lines 246-257) of `plot_tropomi.py`. -/

/-- Styling parameters passed to `ShapelyFeature` / `add_geometries`. -/
structure DrawStyle where
  edgecolor : String
  facecolor : String
  linewidth : ℚ
deriving DecidableEq

/-- The focal-country style of line 195-199: `edgecolor='black'`,
`facecolor='none'`, `linewidth=2.5`. -/
def focalBorderStyle : DrawStyle :=
  ⟨"black", "none", 5 / 2⟩

/-- The context-country style of lines 201-205: `edgecolor='gray'`,
`facecolor='none'`, `linewidth=1`. -/
def contextBorderStyle : DrawStyle :=
  ⟨"gray", "none", 1⟩

/-- The branch condition of line 194: the focal source is the one whose
country name equals `"Ukraine"`. -/
def isFocal (country : String) : Bool :=
  country == "Ukraine"

/-- Style choice of lines 194-205 for one border source. -/
def borderStyleFor (country : String) : DrawStyle :=
  if isFocal country then focalBorderStyle else contextBorderStyle

/-- The border-drawing loop of lines 184-208: each country in the source
list is issued to `ax.add_feature` with its own explicit style. -/
def renderBorders (countries : List String) : List (String × DrawStyle) :=
  countries.map (fun c => (c, borderStyleFor c))

/-- The hard-coded border source list of line 184. -/
def borderCountries : List String :=
  ["Belarus", "Moldova", "Romania", "Slovakia", "Hungary", "Poland", "Russia", "Ukraine"]

/-- `record.attributes.get('type')`: dictionary lookup returning `None`
when the key is absent. -/
def pyGet {α : Type} (kvs : List (String × α)) (k : String) : Option α :=
  (kvs.find? (fun p => p.1 == k)).map (fun p => p.2)

/-- A road record from the Natural Earth roads shapefile: its attribute
dictionary (only the `type` attribute matters here). -/
structure RoadRecord where
  attributes : List (String × String)
deriving DecidableEq

/-- The filter condition of lines 215-216: draw unless
`record.attributes.get('type')` equals `'Ferry Route'`. -/
def roadDrawn (r : RoadRecord) : Bool :=
  pyGet r.attributes "type" != some "Ferry Route"

/-- The uniform styling issued by `ax.add_geometries` on lines 217-218:
`edgecolor='lightgray'`, `linewidth=0.6`, `facecolor='none'`. -/
def roadStyle : DrawStyle :=
  ⟨"lightgray", "none", 3 / 5⟩

/-- The road-drawing loop of lines 214-218: every record passing the
ferry filter is drawn, all with the same style. -/
def renderRoads (rs : List RoadRecord) : List (RoadRecord × DrawStyle) :=
  (rs.filter roadDrawn).map (fun r => (r, roadStyle))

/-- Annotation offsets (`xytext`) in points. -/
def defaultLabelOffset : Int × Int := (10, 10)

/-- The per-name `xytext` override table of the if/elif chain on lines
247-253: Zaporizhzhia's label sits below its marker, Kyiv's higher. -/
def labelOverrides : List (String × (Int × Int)) :=
  [("Zaporizhzhia", (10, -20)), ("Kyiv", (10, 13))]

/-- The `xytext` offset chosen by the if/elif/else chain of lines
246-257 for one city name. -/
def labelOffset (name : String) : Int × Int :=
  if name == "Zaporizhzhia" then (10, -20)
  else if name == "Kyiv" then (10, 13)
  else defaultLabelOffset

/-- The annotation loop of lines 246-257: each city is annotated with
its name at the offset chosen by the chain. -/
def cityLabels (names : List String) : List (String × (Int × Int)) :=
  names.map (fun n => (n, labelOffset n))

/-! ## Claims about the grid loader -/

/-- C1 (as stated, counterexample): a configured threshold of `0` is
falsy in Python, so `if min_value:` skips the masking and the raw value
`-1`, although strictly below the configured threshold, is not marked
missing. -/
theorem c1_counterexample :
    applyMinValue (some 0) [(-1 : ℚ)] = [some (-1)] ∧ ((-1 : ℚ) < 0) := by
  constructor
  · simp [applyMinValue, truthy]
  · norm_num

/-- C1 (amended): for every configured non-zero threshold `t`, the
loader marks a value missing iff the raw value is strictly below `t`,
and leaves every other value unchanged. -/
theorem c1_threshold_masking (t : ℚ) (ht : t ≠ 0) (obs : List ℚ) (i : Nat)
    (hi : i < obs.length) :
    (applyMinValue (some t) obs)[i]? =
      some (if obs[i] < t then none else some obs[i]) := by
  have htr : truthy (some t) = true := by simp [truthy, ht]
  simp [applyMinValue, htr, List.getElem?_eq_getElem hi]

/-- Witness for C1 at a concrete grid and threshold. -/
theorem c1_threshold_masking_witness :
    (1 : ℚ) ≠ 0 ∧ (0 : Nat) < [(1 / 2 : ℚ), 2].length ∧
    (applyMinValue (some 1) [(1 / 2 : ℚ), 2])[0]? = some none :=
  ⟨by norm_num, by norm_num, by
    have h := c1_threshold_masking 1 (by norm_num) [(1 / 2 : ℚ), 2] 0 (by norm_num)
    rw [h]
    norm_num⟩

/-- C2: on a file the provider cannot parse, `read_file` logs the error
report but the exception it then stops with is `NameError` (the `except`
block falls through to an unbound `data`), not any `DataUnavailableError`
— no such class exists in the source. -/
theorem c2_read_failure_behaviour :
    read_file_open (α := Unit) "input.nc" (Except.error "harp import failed") =
      (["Reading data file input.nc",
        "Error while reading the data file input.nc", "harp import failed"],
       Except.error (PyErr.nameError "data")) ∧
    PyErr.nameError "data" ≠ PyErr.dataUnavailableError "input.nc" := by
  constructor
  · rfl
  · simp

/-- C3: on a variable id with no matching configuration document, `main`
logs the error report but the exception it then stops with is
`NameError` (the `except` block falls through to an unbound `conf`), not
any `ConfigurationError` — no such class exists in the source. -/
theorem c3_config_failure_behaviour :
    main_read_conf (α := Unit) "unknown-var" (Except.error "No such file or directory") =
      (["Reading config file conf/unknown-var.json",
        "Error while reading the configuration file conf/unknown-var.json",
        "No such file or directory"],
       Except.error (PyErr.nameError "conf")) ∧
    PyErr.nameError "conf" ≠ PyErr.configurationError "unknown-var" := by
  constructor
  · rfl
  · simp

/-- C7 (as stated, counterexample): `numpy.squeeze` removes every
singleton axis, not only a leading one.  For an observation array of
shape `(1, 5, 1)` — five latitudes, one longitude — the squeezed shape
is `(5,)`, so its trailing dimensions are not `(5, 1)`. -/
theorem c7_counterexample :
    npSqueeze [1, 5, 1] = [5] ∧ lastTwo (npSqueeze [1, 5, 1]) ≠ [5, 1] := by
  decide

/-- C7 (amended): `squeeze` removes all singleton dimensions; whenever
both spatial dimensions have extent greater than one, the squeezed
shape's last two dimensions equal `(len(lat), len(lon))`, with or
without a leading singleton time dimension. -/
theorem c7_squeeze_amended (la lo : Nat) (hla : 1 < la) (hlo : 1 < lo) :
    npSqueeze [1, la, lo] = [la, lo] ∧ npSqueeze [la, lo] = [la, lo] ∧
    lastTwo (npSqueeze [1, la, lo]) = [la, lo] := by
  have ha : (la != 1) = true := by simp; omega
  have hb : (lo != 1) = true := by simp; omega
  refine ⟨?_, ?_, ?_⟩ <;> simp [npSqueeze, List.filter, ha, hb, lastTwo]

/-- Witness for C7 at a concrete shape. -/
theorem c7_squeeze_amended_witness :
    1 < 2 ∧ 1 < 3 ∧ npSqueeze [1, 2, 3] = [2, 3] :=
  ⟨by decide, by decide, (c7_squeeze_amended 2 3 (by decide) (by decide)).1⟩

/-! ## Claims about the regional renderer -/

/-- C4: a border polygon is drawn with the focal style exactly when its
country is the focal one, and with the context style otherwise; the
style a country receives does not depend on the order of the source
list. -/
theorem c4_border_styling (l1 l2 : List String) (hperm : l1.Perm l2)
    (c : String) (s : DrawStyle) :
    ((c, s) ∈ renderBorders l1 ↔ (c, s) ∈ renderBorders l2) ∧
    ((c, s) ∈ renderBorders l1 →
      (s = focalBorderStyle ↔ isFocal c = true) ∧
      (s = contextBorderStyle ↔ isFocal c = false)) := by
  have hne : focalBorderStyle ≠ contextBorderStyle := by
    simp [focalBorderStyle, contextBorderStyle]
  constructor
  · exact (hperm.map _).mem_iff
  · intro hmem
    rw [renderBorders, List.mem_map] at hmem
    obtain ⟨a, ha, heq⟩ := hmem
    obtain ⟨rfl, rfl⟩ := Prod.mk.injEq .. |>.mp heq
    by_cases hf : isFocal a = true <;>
      simp [borderStyleFor, hf, hne, Ne.symm hne]

/-- Witness for C4: the source list of the code and its reversal. -/
theorem c4_border_styling_witness :
    borderCountries.Perm borderCountries.reverse ∧
    ((("Ukraine", focalBorderStyle) ∈ renderBorders borderCountries ↔
      ("Ukraine", focalBorderStyle) ∈ renderBorders borderCountries.reverse) ∧
     (("Ukraine", focalBorderStyle) ∈ renderBorders borderCountries →
       (focalBorderStyle = focalBorderStyle ↔ isFocal "Ukraine" = true) ∧
       (focalBorderStyle = contextBorderStyle ↔ isFocal "Ukraine" = false))) :=
  ⟨(List.reverse_perm _).symm,
   c4_border_styling _ _ ((List.reverse_perm _).symm) "Ukraine" focalBorderStyle⟩

/-- C5: a road record is drawn iff its `type` attribute differs from
`'Ferry Route'`, and every drawn road receives the same uniform style. -/
theorem c5_road_filter (rs : List RoadRecord) (r : RoadRecord) (hr : r ∈ rs) :
    ((∃ st, (r, st) ∈ renderRoads rs) ↔ pyGet r.attributes "type" ≠ some "Ferry Route") ∧
    (∀ p ∈ renderRoads rs, p.2 = roadStyle) := by
  constructor
  · constructor
    · rintro ⟨st, hst⟩
      rw [renderRoads, List.mem_map] at hst
      obtain ⟨a, ha, heq⟩ := hst
      rw [List.mem_filter] at ha
      obtain ⟨rfl, -⟩ := Prod.mk.injEq .. |>.mp heq
      simpa [roadDrawn] using ha.2
    · intro hne
      refine ⟨roadStyle, ?_⟩
      rw [renderRoads, List.mem_map]
      exact ⟨r, List.mem_filter.mpr ⟨hr, by simp [roadDrawn, hne]⟩, rfl⟩
  · intro p hp
    rw [renderRoads, List.mem_map] at hp
    obtain ⟨a, -, heq⟩ := hp
    rw [← heq]

/-- Witness for C5 at a concrete record list. -/
theorem c5_road_filter_witness :
    RoadRecord.mk [("type", "Major Highway")] ∈
      [RoadRecord.mk [("type", "Ferry Route")], RoadRecord.mk [("type", "Major Highway")]] ∧
    ((∃ st, (RoadRecord.mk [("type", "Major Highway")], st) ∈
        renderRoads [RoadRecord.mk [("type", "Ferry Route")],
          RoadRecord.mk [("type", "Major Highway")]]) ↔
      pyGet (RoadRecord.mk [("type", "Major Highway")]).attributes "type" ≠
        some "Ferry Route") :=
  ⟨by decide,
   (c5_road_filter _ _ (by decide)).1⟩

/-- C10: a road record with no `type` attribute at all passes the
filter (`None != 'Ferry Route'`) and is drawn like an ordinary road. -/
theorem c10_typeless_road_drawn (rs : List RoadRecord) (r : RoadRecord) (hr : r ∈ rs)
    (hnone : pyGet r.attributes "type" = none) :
    (r, roadStyle) ∈ renderRoads rs := by
  rw [renderRoads, List.mem_map]
  exact ⟨r, List.mem_filter.mpr ⟨hr, by simp [roadDrawn, hnone]⟩, rfl⟩

/-- Witness for C10 at a concrete record with no `type` attribute. -/
theorem c10_typeless_road_drawn_witness :
    (RoadRecord.mk [("name", "M03")], roadStyle) ∈
      renderRoads [RoadRecord.mk [("name", "M03")]] :=
  c10_typeless_road_drawn _ _ (by decide) (by decide)

/-- C6: every plotted city label uses the per-name offset override when
the name is in the override table, and the default offset otherwise. -/
theorem c6_label_offsets (names : List String) (p : String × Int × Int)
    (hp : p ∈ cityLabels names) :
    p.2 = (pyGet labelOverrides p.1).getD defaultLabelOffset := by
  rw [cityLabels, List.mem_map] at hp
  obtain ⟨n, hn, rfl⟩ := hp
  show labelOffset n = _
  by_cases h1 : n = "Zaporizhzhia"
  · subst h1; rfl
  by_cases h2 : n = "Kyiv"
  · subst h2; rfl
  have h1f : ("Zaporizhzhia" == n) = false := by
    simp only [beq_eq_false_iff_ne, ne_eq]
    exact fun h => h1 h.symm
  have h2f : ("Kyiv" == n) = false := by
    simp only [beq_eq_false_iff_ne, ne_eq]
    exact fun h => h2 h.symm
  simp [labelOffset, pyGet, labelOverrides, List.find?, h1, h2, h1f, h2f]

/-- Witness for C6 at a concrete city list. -/
theorem c6_label_offsets_witness :
    ("Kyiv", ((10 : Int), (13 : Int))) ∈ cityLabels ["Kyiv", "Lviv"] ∧
    ((10 : Int), (13 : Int)) =
      (pyGet labelOverrides "Kyiv").getD defaultLabelOffset :=
  ⟨by decide, c6_label_offsets ["Kyiv", "Lviv"] ("Kyiv", ((10 : Int), (13 : Int))) (by decide)⟩

/-! ## Claims about the time codec

Order infrastructure: `nextDay` strictly increases the chronological
(lexicographic) key, hence `addDays` is monotone, hence the whole codec
is monotone in the day offset. -/

theorem addDays_succ (dt : Date) (n : Nat) :
    addDays dt (n + 1) = addDays (nextDay dt) n := by
  cases dt
  rfl

theorem addDays_add (dt : Date) (a b : Nat) :
    addDays dt (a + b) = addDays (addDays dt a) b := by
  induction a generalizing dt with
  | zero => simp [addDays]
  | succ k ih =>
    have h1 : k + 1 + b = (k + b) + 1 := by omega
    rw [h1, addDays_succ, addDays_succ, ih]

theorem minutesFloor_eq_floor (q : ℚ) : minutesFloor q = ⌊q * 1440⌋ := by
  rw [minutesFloor, Rat.floor_def', Rat.floor_def]

theorem toL_lt_nextDay (dt : Date) : dt.toL < (nextDay dt).toL := by
  rcases dt with ⟨y, m, d⟩
  rw [nextDay]
  split_ifs with h1 h2 <;> simp [Date.toL, Prod.Lex.lt_iff]

theorem addDays_toL_lt (dt : Date) (n : Nat) : dt.toL < (addDays dt (n + 1)).toL := by
  induction n generalizing dt with
  | zero =>
    rw [addDays_succ]
    exact toL_lt_nextDay dt
  | succ k ih =>
    rw [addDays_succ]
    exact lt_trans (toL_lt_nextDay dt) (ih (nextDay dt))

theorem addDays_toL_strictMono (dt : Date) {a b : Nat} (h : a < b) :
    (addDays dt a).toL < (addDays dt b).toL := by
  obtain ⟨k, rfl⟩ : ∃ k, b = a + (k + 1) := ⟨b - a - 1, by omega⟩
  rw [addDays_add]
  exact addDays_toL_lt (addDays dt a) k

theorem mkDateTime_natCast (d0 : Date) (k : Nat) :
    mkDateTime d0 (k : Int) =
      ⟨addDays d0 (k / 1440), k % 1440 / 60, k % 1440 % 60⟩ := by
  have hfd : Int.fdiv (k : Int) 1440 = ((k / 1440 : Nat) : Int) :=
    (Int.ofNat_fdiv k 1440).symm
  have hfm : Int.fmod (k : Int) 1440 = ((k % 1440 : Nat) : Int) :=
    (Int.ofNat_fmod k 1440).symm
  rw [mkDateTime, shiftDate, hfd, hfm]
  rw [if_pos (Int.ofNat_nonneg _)]
  rw [Int.toNat_natCast, Int.toNat_natCast]

theorem mkDateTime_toL_mono (d0 : Date) {t1 t2 : Int} (h0 : 0 ≤ t1) (h12 : t1 ≤ t2) :
    (mkDateTime d0 t1).toL ≤ (mkDateTime d0 t2).toL := by
  obtain ⟨k1, rfl⟩ : ∃ k : Nat, t1 = (k : Int) := ⟨t1.toNat, (Int.toNat_of_nonneg h0).symm⟩
  obtain ⟨k2, rfl⟩ : ∃ k : Nat, t2 = (k : Int) :=
    ⟨t2.toNat, (Int.toNat_of_nonneg (le_trans h0 h12)).symm⟩
  have hk : k1 ≤ k2 := by exact_mod_cast h12
  rw [mkDateTime_natCast, mkDateTime_natCast, DateTime.toL, DateTime.toL]
  rcases Nat.lt_or_ge (k1 / 1440) (k2 / 1440) with hlt | hge
  · exact le_of_lt ((Prod.Lex.lt_iff _ _).mpr (Or.inl (addDays_toL_strictMono d0 hlt)))
  · have hq : k1 / 1440 = k2 / 1440 := Nat.le_antisymm (Nat.div_le_div_right hk) hge
    rw [hq]
    refine (Prod.Lex.le_iff _ _).mpr (Or.inr ⟨rfl, ?_⟩)
    have hr : k1 % 1440 ≤ k2 % 1440 := by omega
    rcases Nat.lt_or_ge (k1 % 1440 / 60) (k2 % 1440 / 60) with h60 | h60
    · exact (Prod.Lex.le_iff _ _).mpr (Or.inl h60)
    · have he : k1 % 1440 / 60 = k2 % 1440 / 60 :=
        Nat.le_antisymm (Nat.div_le_div_right hr) h60
      refine (Prod.Lex.le_iff _ _).mpr (Or.inr ⟨he, ?_⟩)
      show k1 % 1440 % 60 ≤ k2 % 1440 % 60
      omega

theorem strptimeYmd_inRange {E : String} {d : Date} (h : strptimeYmd E = some d) :
    inRangeYear d = true := by
  simp only [strptimeYmd] at h
  split_ifs at h with h1 h2
  · rw [Option.some.injEq] at h
    subst h
    simp only [inRangeYear, Bool.and_eq_true, decide_eq_true_eq]
    exact ⟨h2.1, h2.2.1⟩

theorem dayssince_to_datetime_some {E : String} {q : ℚ} {t : DateTime}
    (h : dayssince_to_datetime E q = some t) :
    ∃ d0, strptimeYmd E = some d0 ∧ t = mkDateTime d0 (minutesFloor q) := by
  rw [dayssince_to_datetime] at h
  split at h
  · exact Option.noConfusion h
  · rename_i d0 hE
    split at h
    · exact ⟨d0, hE, ((Option.some.injEq _ _).mp h).symm⟩
    · exact Option.noConfusion h

theorem mkDateTime_zero (d0 : Date) : mkDateTime d0 0 = ⟨d0, 0, 0⟩ := by
  have h0 : mkDateTime d0 ((0 : Nat) : Int) = ⟨addDays d0 0, 0, 0⟩ :=
    mkDateTime_natCast d0 0
  exact h0

theorem dayssince_to_datetime_zero {E : String} {d0 : Date}
    (h : strptimeYmd E = some d0) :
    dayssince_to_datetime E 0 = some ⟨d0, 0, 0⟩ := by
  have htm : minutesFloor 0 = 0 := by
    rw [minutesFloor_eq_floor]
    norm_num
  have hy := strptimeYmd_inRange h
  simp only [dayssince_to_datetime, h, htm, mkDateTime_zero, hy, if_true]

theorem addDays_epoch_8341 : addDays ⟨2000, 1, 1⟩ 8341 = ⟨2022, 11, 2⟩ := by
  have hc1 : addDays ⟨2000,1,1⟩ 200 = ⟨2000,7,19⟩ := by decide
  have hc2 : addDays ⟨2000,7,19⟩ 200 = ⟨2001,2,4⟩ := by decide
  have hc3 : addDays ⟨2001,2,4⟩ 200 = ⟨2001,8,23⟩ := by decide
  have hc4 : addDays ⟨2001,8,23⟩ 200 = ⟨2002,3,11⟩ := by decide
  have hc5 : addDays ⟨2002,3,11⟩ 200 = ⟨2002,9,27⟩ := by decide
  have hc6 : addDays ⟨2002,9,27⟩ 200 = ⟨2003,4,15⟩ := by decide
  have hc7 : addDays ⟨2003,4,15⟩ 200 = ⟨2003,11,1⟩ := by decide
  have hc8 : addDays ⟨2003,11,1⟩ 200 = ⟨2004,5,19⟩ := by decide
  have hc9 : addDays ⟨2004,5,19⟩ 200 = ⟨2004,12,5⟩ := by decide
  have hc10 : addDays ⟨2004,12,5⟩ 200 = ⟨2005,6,23⟩ := by decide
  have hc11 : addDays ⟨2005,6,23⟩ 200 = ⟨2006,1,9⟩ := by decide
  have hc12 : addDays ⟨2006,1,9⟩ 200 = ⟨2006,7,28⟩ := by decide
  have hc13 : addDays ⟨2006,7,28⟩ 200 = ⟨2007,2,13⟩ := by decide
  have hc14 : addDays ⟨2007,2,13⟩ 200 = ⟨2007,9,1⟩ := by decide
  have hc15 : addDays ⟨2007,9,1⟩ 200 = ⟨2008,3,19⟩ := by decide
  have hc16 : addDays ⟨2008,3,19⟩ 200 = ⟨2008,10,5⟩ := by decide
  have hc17 : addDays ⟨2008,10,5⟩ 200 = ⟨2009,4,23⟩ := by decide
  have hc18 : addDays ⟨2009,4,23⟩ 200 = ⟨2009,11,9⟩ := by decide
  have hc19 : addDays ⟨2009,11,9⟩ 200 = ⟨2010,5,28⟩ := by decide
  have hc20 : addDays ⟨2010,5,28⟩ 200 = ⟨2010,12,14⟩ := by decide
  have hc21 : addDays ⟨2010,12,14⟩ 200 = ⟨2011,7,2⟩ := by decide
  have hc22 : addDays ⟨2011,7,2⟩ 200 = ⟨2012,1,18⟩ := by decide
  have hc23 : addDays ⟨2012,1,18⟩ 200 = ⟨2012,8,5⟩ := by decide
  have hc24 : addDays ⟨2012,8,5⟩ 200 = ⟨2013,2,21⟩ := by decide
  have hc25 : addDays ⟨2013,2,21⟩ 200 = ⟨2013,9,9⟩ := by decide
  have hc26 : addDays ⟨2013,9,9⟩ 200 = ⟨2014,3,28⟩ := by decide
  have hc27 : addDays ⟨2014,3,28⟩ 200 = ⟨2014,10,14⟩ := by decide
  have hc28 : addDays ⟨2014,10,14⟩ 200 = ⟨2015,5,2⟩ := by decide
  have hc29 : addDays ⟨2015,5,2⟩ 200 = ⟨2015,11,18⟩ := by decide
  have hc30 : addDays ⟨2015,11,18⟩ 200 = ⟨2016,6,5⟩ := by decide
  have hc31 : addDays ⟨2016,6,5⟩ 200 = ⟨2016,12,22⟩ := by decide
  have hc32 : addDays ⟨2016,12,22⟩ 200 = ⟨2017,7,10⟩ := by decide
  have hc33 : addDays ⟨2017,7,10⟩ 200 = ⟨2018,1,26⟩ := by decide
  have hc34 : addDays ⟨2018,1,26⟩ 200 = ⟨2018,8,14⟩ := by decide
  have hc35 : addDays ⟨2018,8,14⟩ 200 = ⟨2019,3,2⟩ := by decide
  have hc36 : addDays ⟨2019,3,2⟩ 200 = ⟨2019,9,18⟩ := by decide
  have hc37 : addDays ⟨2019,9,18⟩ 200 = ⟨2020,4,5⟩ := by decide
  have hc38 : addDays ⟨2020,4,5⟩ 200 = ⟨2020,10,22⟩ := by decide
  have hc39 : addDays ⟨2020,10,22⟩ 200 = ⟨2021,5,10⟩ := by decide
  have hc40 : addDays ⟨2021,5,10⟩ 200 = ⟨2021,11,26⟩ := by decide
  have hc41 : addDays ⟨2021,11,26⟩ 200 = ⟨2022,6,14⟩ := by decide
  have hc42 : addDays ⟨2022,6,14⟩ 141 = ⟨2022,11,2⟩ := by decide
  rw [show (8341 : Nat) = 200 + 8141 from rfl, addDays_add, hc1]
  rw [show (8141 : Nat) = 200 + 7941 from rfl, addDays_add, hc2]
  rw [show (7941 : Nat) = 200 + 7741 from rfl, addDays_add, hc3]
  rw [show (7741 : Nat) = 200 + 7541 from rfl, addDays_add, hc4]
  rw [show (7541 : Nat) = 200 + 7341 from rfl, addDays_add, hc5]
  rw [show (7341 : Nat) = 200 + 7141 from rfl, addDays_add, hc6]
  rw [show (7141 : Nat) = 200 + 6941 from rfl, addDays_add, hc7]
  rw [show (6941 : Nat) = 200 + 6741 from rfl, addDays_add, hc8]
  rw [show (6741 : Nat) = 200 + 6541 from rfl, addDays_add, hc9]
  rw [show (6541 : Nat) = 200 + 6341 from rfl, addDays_add, hc10]
  rw [show (6341 : Nat) = 200 + 6141 from rfl, addDays_add, hc11]
  rw [show (6141 : Nat) = 200 + 5941 from rfl, addDays_add, hc12]
  rw [show (5941 : Nat) = 200 + 5741 from rfl, addDays_add, hc13]
  rw [show (5741 : Nat) = 200 + 5541 from rfl, addDays_add, hc14]
  rw [show (5541 : Nat) = 200 + 5341 from rfl, addDays_add, hc15]
  rw [show (5341 : Nat) = 200 + 5141 from rfl, addDays_add, hc16]
  rw [show (5141 : Nat) = 200 + 4941 from rfl, addDays_add, hc17]
  rw [show (4941 : Nat) = 200 + 4741 from rfl, addDays_add, hc18]
  rw [show (4741 : Nat) = 200 + 4541 from rfl, addDays_add, hc19]
  rw [show (4541 : Nat) = 200 + 4341 from rfl, addDays_add, hc20]
  rw [show (4341 : Nat) = 200 + 4141 from rfl, addDays_add, hc21]
  rw [show (4141 : Nat) = 200 + 3941 from rfl, addDays_add, hc22]
  rw [show (3941 : Nat) = 200 + 3741 from rfl, addDays_add, hc23]
  rw [show (3741 : Nat) = 200 + 3541 from rfl, addDays_add, hc24]
  rw [show (3541 : Nat) = 200 + 3341 from rfl, addDays_add, hc25]
  rw [show (3341 : Nat) = 200 + 3141 from rfl, addDays_add, hc26]
  rw [show (3141 : Nat) = 200 + 2941 from rfl, addDays_add, hc27]
  rw [show (2941 : Nat) = 200 + 2741 from rfl, addDays_add, hc28]
  rw [show (2741 : Nat) = 200 + 2541 from rfl, addDays_add, hc29]
  rw [show (2541 : Nat) = 200 + 2341 from rfl, addDays_add, hc30]
  rw [show (2341 : Nat) = 200 + 2141 from rfl, addDays_add, hc31]
  rw [show (2141 : Nat) = 200 + 1941 from rfl, addDays_add, hc32]
  rw [show (1941 : Nat) = 200 + 1741 from rfl, addDays_add, hc33]
  rw [show (1741 : Nat) = 200 + 1541 from rfl, addDays_add, hc34]
  rw [show (1541 : Nat) = 200 + 1341 from rfl, addDays_add, hc35]
  rw [show (1341 : Nat) = 200 + 1141 from rfl, addDays_add, hc36]
  rw [show (1141 : Nat) = 200 + 941 from rfl, addDays_add, hc37]
  rw [show (941 : Nat) = 200 + 741 from rfl, addDays_add, hc38]
  rw [show (741 : Nat) = 200 + 541 from rfl, addDays_add, hc39]
  rw [show (541 : Nat) = 200 + 341 from rfl, addDays_add, hc40]
  rw [show (341 : Nat) = 200 + 141 from rfl, addDays_add, hc41]
  rw [hc42]

theorem dayssince_to_datetime_concrete :
    dayssince_to_datetime "20000101" (8341.00196253472 : ℚ) =
      some ⟨⟨2022, 11, 2⟩, 0, 2⟩ := by
  have hparse : strptimeYmd "20000101" = some ⟨2000, 1, 1⟩ := by decide
  have htm : minutesFloor (8341.00196253472 : ℚ) = 12011042 := by
    rw [minutesFloor_eq_floor]
    norm_num
  have hmk : mkDateTime ⟨2000, 1, 1⟩ 12011042 = ⟨⟨2022, 11, 2⟩, 0, 2⟩ := by
    have hfd : Int.fdiv 12011042 1440 = 8341 := by decide
    have hfm : Int.fmod 12011042 1440 = 2 := by decide
    simp only [mkDateTime, shiftDate, hfd, hfm]
    rw [if_pos (by norm_num : (0 : Int) ≤ 8341)]
    rw [show ((8341 : Int).toNat) = 8341 from rfl, addDays_epoch_8341]
    rfl
  simp only [dayssince_to_datetime, hparse, htm, hmk]
  rfl

/-- C8: for a fixed epoch and day offsets `0 ≤ d1 ≤ d2` on which the
codec succeeds, the produced timestamp for `d1` is chronologically no
later than the one for `d2` (lexicographic order on
year, month, day, hour, minute). -/
theorem c8_time_codec_monotone (E : String) (d1 d2 : ℚ) (h1nn : 0 ≤ d1)
    (h12 : d1 ≤ d2) (t1 t2 : DateTime)
    (ht1 : dayssince_to_datetime E d1 = some t1)
    (ht2 : dayssince_to_datetime E d2 = some t2) :
    t1.toL ≤ t2.toL := by
  obtain ⟨d0, hE, rfl⟩ := dayssince_to_datetime_some ht1
  obtain ⟨d0x, hEx, rfl⟩ := dayssince_to_datetime_some ht2
  obtain rfl : d0 = d0x := by
    rw [hE] at hEx
    exact (Option.some.injEq _ _).mp hEx
  apply mkDateTime_toL_mono
  · rw [minutesFloor_eq_floor]
    exact Int.floor_nonneg.mpr (mul_nonneg h1nn (by norm_num))
  · rw [minutesFloor_eq_floor, minutesFloor_eq_floor]
    exact Int.floor_mono (mul_le_mul_of_nonneg_right h12 (by norm_num))

theorem dayssince_to_datetime_one_20000101 :
    dayssince_to_datetime "20000101" 1 = some ⟨⟨2000, 1, 2⟩, 0, 0⟩ := by
  have hparse : strptimeYmd "20000101" = some ⟨2000, 1, 1⟩ := by decide
  have htm : minutesFloor 1 = 1440 := by
    rw [minutesFloor_eq_floor]
    norm_num
  have hmk : mkDateTime ⟨2000, 1, 1⟩ 1440 = ⟨⟨2000, 1, 2⟩, 0, 0⟩ := by decide
  simp only [dayssince_to_datetime, hparse, htm, hmk]
  rfl

/-- Witness for C8: offsets 0 and 1 from epoch 2000-01-01. -/
theorem c8_time_codec_monotone_witness :
    (0 : ℚ) ≤ 0 ∧ (0 : ℚ) ≤ 1 ∧
    (DateTime.mk ⟨2000, 1, 1⟩ 0 0).toL ≤ (DateTime.mk ⟨2000, 1, 2⟩ 0 0).toL :=
  ⟨le_refl 0, by norm_num,
   c8_time_codec_monotone "20000101" 0 1 (le_refl 0) (by norm_num) _ _
     (dayssince_to_datetime_zero (by decide)) dayssince_to_datetime_one_20000101⟩

/-- C9: for every parseable epoch `E`, `to_timestamp(E, 0)` is `E`
rendered at minute precision (`YYYY-MM-DD 00:00`); concretely, epoch
`20000101` with offset `8341.00196253472` yields `2022-11-02 00:02`. -/
theorem c9_time_codec_epoch_identity :
    (∀ (E : String) (d0 : Date), strptimeYmd E = some d0 →
      dayssince_to_timestamp E 0 = some (strftimeYmdHM ⟨d0, 0, 0⟩)) ∧
    dayssince_to_timestamp "20000101" (8341.00196253472 : ℚ) =
      some "2022-11-02 00:02" := by
  constructor
  · intro E d0 h
    rw [dayssince_to_timestamp, dayssince_to_datetime_zero h]
    rfl
  · rw [dayssince_to_timestamp, dayssince_to_datetime_concrete]
    rfl

/-- Witness for C9 at the epoch of the codebase configuration. -/
theorem c9_time_codec_epoch_identity_witness :
    strptimeYmd "20000101" = some ⟨2000, 1, 1⟩ ∧
    dayssince_to_timestamp "20000101" 0 =
      some (strftimeYmdHM ⟨⟨2000, 1, 1⟩, 0, 0⟩) :=
  ⟨by decide,
   c9_time_codec_epoch_identity.1 "20000101" ⟨2000, 1, 1⟩ (by decide)⟩

end PlotTropomi

